import Mathlib

/-!
# Verification of the Wardrowbe frontend auth glue

Shallow embedding of the two source files of the repository:

* `src/frontend/lib/hooks/use-auth.ts` — the `useAuth` hook that reconciles
  a NextAuth session with a `/users/me` profile fetch and issues a corrective
  sign-out (guarded by a single-flight `signingOut` ref) on inconsistency;
* the invite-acceptance page (`InviteContent`) — token extraction, redirect
  effects, the join call and its status-specific error messages.

JavaScript truthiness on the optional strings involved (`session?.accessToken`,
`searchParams.get('token')`) is modelled explicitly: `null`/absent and the
empty string are falsy, every other string is truthy.
-/

set_option autoImplicit false

namespace Wardrowbe

/-- Session status of the external session provider (`useSession().status`):
one of `'loading' | 'authenticated' | 'unauthenticated'`. -/
inductive SessionStatus where
  | loading
  | authenticated
  | unauthenticated
deriving DecidableEq, Repr

/-- Modelled from the spec: `UserProfile` is declared in
`frontend/lib/hooks/use-user.ts`, which is not part of the visible sources.
The spec describes it only as the "fetched result, present only when the
backend accepts the current credential"; none of its fields matter to the
claims, so it is a record with an opaque identifier. -/
structure UserProfile where
  id : Nat
deriving DecidableEq, Repr

/-- Modelled from the spec: `ApiError` is declared in `frontend/lib/api.ts`,
which is not part of the visible sources. Per the spec it is "a typed error
carrying an HTTP status code and message". A JavaScript `unknown` error value
is either an `ApiError` instance or some other value. -/
inductive JsError where
  | apiError (status : Nat) (message : String)
  | other
deriving DecidableEq, Repr

/-- The NextAuth session object as read by this code: `session?.accessToken`
is an optional string. `session` itself may be `null`. -/
structure Session where
  accessToken : Option String
deriving DecidableEq, Repr

/-- JavaScript truthiness of `s?.accessToken`-style optional strings:
`null`/`undefined` and `""` are falsy. -/
def jsTruthy : Option String → Bool
  | none => false
  | some s => decide (s ≠ "")

/-- `const hasToken = !!session?.accessToken;` from `useAuth`. -/
def hasToken (session : Option Session) : Bool :=
  jsTruthy (session.bind Session.accessToken)

/-- Status of the TanStack query returned for the profile fetch:
`isPending`, `isSuccess` and the error field are projections of it. -/
inductive QueryStatus where
  | pending
  | error
  | success
deriving DecidableEq, Repr

/-- The slice of the TanStack `useQuery` result object that `useAuth` reads:
`data`, `error`, `isPending`, `isSuccess`. -/
structure QueryResult where
  qstatus : QueryStatus
  data : Option UserProfile
  error : Option JsError
deriving DecidableEq, Repr

/-- `userQuery.isSuccess`. -/
def QueryResult.isSuccess (q : QueryResult) : Bool :=
  decide (q.qstatus = QueryStatus.success)

/-- `userQuery.isPending`. -/
def QueryResult.isPending (q : QueryResult) : Bool :=
  decide (q.qstatus = QueryStatus.pending)

/-- The options object passed to `useQuery` in `useAuth` (the fields with
behavioural content: `enabled`, `retry`, `staleTime`, `refetchOnWindowFocus`). -/
structure QueryOptions where
  enabled : Bool
  retry : Bool
  staleTime : Nat
  refetchOnWindowFocus : Bool
deriving DecidableEq, Repr

/-- The options `useAuth` passes to `useQuery`:
`enabled: status === 'authenticated' && hasToken, retry: false,
staleTime: 5 * 60 * 1000, refetchOnWindowFocus: false`. -/
def userQueryOptions (status : SessionStatus) (tok : Bool) : QueryOptions :=
  { enabled := decide (status = SessionStatus.authenticated) && tok
    retry := false
    staleTime := 5 * 60 * 1000
    refetchOnWindowFocus := false }

/-- The query layer's fetch contract as consumed (spec §6: `enabled` gates
fetching, `retry: false` means a failed fetch is not retried): the maximal
number of fetch attempts the layer makes for one session snapshot. A disabled
query never fetches; an enabled query with `retry: false` makes exactly one
attempt; with `retry` on it would make the default 1 + 3 attempts. -/
def maxFetchAttempts (o : QueryOptions) : Nat :=
  if o.enabled then (if o.retry then 4 else 1) else 0

/-- The view object returned by `useAuth`. -/
structure AuthView where
  user : Option UserProfile
  isAuthenticated : Bool
  isLoading : Bool
  error : Option JsError
  sessionStatus : SessionStatus
deriving DecidableEq, Repr

/-- The pure projection computed by `useAuth` from the session status and the
profile-query result:
`isAuthenticated = userQuery.isSuccess && !!userQuery.data;`
`isLoading = status === 'loading' || (status === 'authenticated' && userQuery.isPending);`. -/
def useAuth (status : SessionStatus) (q : QueryResult) : AuthView :=
  { user := q.data
    isAuthenticated := q.isSuccess && q.data.isSome
    isLoading :=
      decide (status = SessionStatus.loading) ||
        (decide (status = SessionStatus.authenticated) && q.isPending)
    error := q.error
    sessionStatus := status }

/-- `userQuery.error instanceof ApiError && userQuery.error.status === 401`. -/
def is401 : Option JsError → Bool
  | some (JsError.apiError s _) => decide (s = 401)
  | _ => false

/-- The inputs of the reconciliation effect in `useAuth` (its dependency
array: `[userQuery.error, status, hasToken]`). -/
structure EffectDeps where
  error : Option JsError
  status : SessionStatus
  tok : Bool
deriving DecidableEq, Repr

/-- Which corrective branch of the reconciliation effect fires: the effect
returns early when the `signingOut` guard is set; otherwise the 401 branch is
tested first (and `return`s), then the authenticated-without-token branch. -/
inductive CorrectiveAction where
  | signOut401
  | signOutNoToken
  | noAction
deriving DecidableEq, Repr

/-- Branch selection of the reconciliation effect body, read off the source:
`if (signingOut.current) return;`
`if (error instanceof ApiError && error.status === 401) { ... signOut ...; return; }`
`if (status === 'authenticated' && !hasToken) { ... signOut ...; }`. -/
def effectAction (guard : Bool) (d : EffectDeps) : CorrectiveAction :=
  if guard then CorrectiveAction.noAction
  else if is401 d.error then CorrectiveAction.signOut401
  else if d.status = SessionStatus.authenticated && !d.tok then
    CorrectiveAction.signOutNoToken
  else CorrectiveAction.noAction

/-- The mutable state relevant to the corrective sign-out:
`signingOut` is the `useRef(false)` guard; `inFlight` counts sign-out promises
started and not yet settled; `issued` counts sign-out calls ever issued. -/
structure SignOutState where
  signingOut : Bool
  inFlight : Nat
  issued : Nat
deriving DecidableEq, Repr

/-- State at mount: `useRef(false)`, no call in flight, none issued. -/
def initSignOutState : SignOutState :=
  { signingOut := false, inFlight := 0, issued := 0 }

/-- One synchronous run of the reconciliation effect body. Both corrective
branches execute the same code: set `signingOut.current = true` and start a
`signOut({ redirect: false })` call. -/
def effectBody (st : SignOutState) (d : EffectDeps) : SignOutState :=
  match effectAction st.signingOut d with
  | CorrectiveAction.noAction => st
  | _ =>
      { signingOut := true, inFlight := st.inFlight + 1, issued := st.issued + 1 }

/-- Settlement of one in-flight `signOut` promise. The source attaches only a
fulfillment handler — `signOut({redirect: false}).then(() => { signingOut.current
= false; })` — so the guard is cleared when the call succeeds and left untouched
when it rejects. Settling when nothing is in flight is a no-op. -/
def settleBody (st : SignOutState) (ok : Bool) : SignOutState :=
  if st.inFlight = 0 then st
  else
    { signingOut := if ok then false else st.signingOut
      inFlight := st.inFlight - 1
      issued := st.issued }

/-- An event on the single UI thread: either the reconciliation effect runs
(with its current dependency snapshot), or an in-flight sign-out settles
(`ok = true` for fulfillment, `ok = false` for rejection). -/
inductive AuthEvent where
  | run (d : EffectDeps)
  | settle (ok : Bool)
deriving DecidableEq, Repr

/-- Apply one event to the sign-out state. -/
def stepEvent (st : SignOutState) : AuthEvent → SignOutState
  | AuthEvent.run d => effectBody st d
  | AuthEvent.settle ok => settleBody st ok

/-- Run a sequence of events from the mount state. -/
def runEvents (evs : List AuthEvent) : SignOutState :=
  evs.foldl stepEvent initSignOutState

/-- Uppercase hexadecimal digit, as produced by `encodeURIComponent`. -/
def hexDigit (n : Nat) : Char :=
  if n < 10 then Char.ofNat (48 + n) else Char.ofNat (65 + (n - 10))

/-- Characters `encodeURIComponent` leaves unescaped (ECMA-262
`uriUnescaped`): ASCII alphanumerics and `- _ . ! ~ * ' ( )`. -/
def uriUnescaped (c : Char) : Bool :=
  (65 ≤ c.toNat && c.toNat ≤ 90) ||
  (97 ≤ c.toNat && c.toNat ≤ 122) ||
  (48 ≤ c.toNat && c.toNat ≤ 57) ||
  c.toNat = 45 || c.toNat = 95 || c.toNat = 46 || c.toNat = 33 ||
  c.toNat = 126 || c.toNat = 42 || c.toNat = 39 || c.toNat = 40 || c.toNat = 41

/-- UTF-8 encoding of one code point (code points are valid by construction
of `Char`, so the surrogate-pair branch of the JS algorithm reduces to plain
UTF-8 of the combined code point). -/
def utf8Bytes (c : Char) : List Nat :=
  let n := c.toNat
  if n < 128 then [n]
  else if n < 2048 then [192 + n / 64, 128 + n % 64]
  else if n < 65536 then [224 + n / 4096, 128 + n / 64 % 64, 128 + n % 64]
  else [240 + n / 262144, 128 + n / 4096 % 64, 128 + n / 64 % 64, 128 + n % 64]

/-- Percent-escape of one byte: `%XX` with uppercase hex. -/
def percentByte (b : Nat) : String :=
  String.mk [Char.ofNat 37, hexDigit (b / 16), hexDigit (b % 16)]

/-- The JavaScript builtin `encodeURIComponent`, modelled from ECMA-262:
unescaped characters pass through, every other character is replaced by the
percent-escapes of its UTF-8 bytes. -/
def encodeURIComponent (s : String) : String :=
  String.join (s.data.map fun c =>
    if uriUnescaped c then String.singleton c else
      String.join ((utf8Bytes c).map percentByte))

/-- A navigation the invite page performs through the router. -/
inductive NavAction where
  | replace (url : String)
  | push (url : String)
  | noNav
deriving DecidableEq, Repr

/-- The mount/update effect of `InviteContent`:
`if (!token) { router.replace('/dashboard/family'); }
 else if (status === 'unauthenticated') {
   router.replace(`/login?callbackUrl=\x7bencodeURIComponent(`/invite?token=\x7btoken\x7d`)\x7d`); }`.
`token` is `searchParams.get('token')` (`null` when absent); `!token` is JS
falsiness, so the empty string also takes the first branch. -/
def inviteEffect (token : Option String) (status : SessionStatus) : NavAction :=
  if !jsTruthy token then NavAction.replace "/dashboard/family"
  else if status = SessionStatus.unauthenticated then
    NavAction.replace
      ("/login?callbackUrl=" ++
        encodeURIComponent ("/invite?token=" ++ token.getD ""))
  else NavAction.noNav

/-- What `InviteContent` renders: `null` when `!token`; a blocking loader
while the session status is `loading` or `unauthenticated`; otherwise the
acceptance card. -/
inductive InviteRender where
  | nothing
  | loader
  | acceptCard
deriving DecidableEq, Repr

/-- The render branch of `InviteContent`, read off the source:
`if (!token) return null;`
`if (status === 'loading' || status === 'unauthenticated') return <loader>;`
otherwise the card with the accept button. -/
def inviteRender (token : Option String) (status : SessionStatus) : InviteRender :=
  if !jsTruthy token then InviteRender.nothing
  else if status = SessionStatus.loading || status = SessionStatus.unauthenticated then
    InviteRender.loader
  else InviteRender.acceptCard

/-- `getErrorMessage` from the invite page, clause for clause:
an `ApiError` with status 404, 403 or 409 gets its specific message, anything
else the generic one. -/
def getErrorMessage : JsError → String
  | JsError.apiError s _ =>
      if s = 404 then "This invite link is invalid or has expired."
      else if s = 403 then "This invite was sent to a different email address."
      else if s = 409 then "You are already in a family."
      else "Something went wrong. Please try again."
  | JsError.other => "Something went wrong. Please try again."

/-- Result of a successful join call (`useJoinFamilyByToken`): the payload
field `handleAccept` reads is `family_name`. -/
structure JoinResult where
  family_name : String
deriving DecidableEq, Repr

/-- Observable output of one `handleAccept` invocation: the toasts shown and
the navigations performed, in order. -/
structure AcceptOutcome where
  toasts : List String
  navigations : List NavAction
deriving DecidableEq, Repr

/-- `handleAccept` from the invite page:
`try { const result = await joinByToken.mutateAsync(token);
  toast.success(`Joined $\x7bresult.family_name\x7d!`);
  router.push('/dashboard/family'); } catch \x7b\x7d` —
on success one toast and one navigation, on failure nothing (the error is
rendered separately through `getErrorMessage`). -/
def handleAccept (result : Except JsError JoinResult) : AcceptOutcome :=
  match result with
  | Except.ok r =>
      { toasts := ["Joined " ++ r.family_name ++ "!"]
        navigations := [NavAction.push "/dashboard/family"] }
  | Except.error _ => { toasts := [], navigations := [] }

/-! ## Helper lemmas -/

/-- Invariant tying the in-flight count to the guard: a sign-out can be in
flight only while `signingOut` is held, and never more than one. -/
def SignOutInv (st : SignOutState) : Prop :=
  st.inFlight ≤ if st.signingOut then 1 else 0

lemma effectAction_guard (d : EffectDeps) :
    effectAction true d = CorrectiveAction.noAction := rfl

lemma effectBody_of_guard (st : SignOutState) (d : EffectDeps)
    (h : st.signingOut = true) : effectBody st d = st := by
  simp [effectBody, h, effectAction_guard]

lemma signOutInv_init : SignOutInv initSignOutState := by
  simp [SignOutInv, initSignOutState]

lemma signOutInv_step (st : SignOutState) (e : AuthEvent)
    (h : SignOutInv st) : SignOutInv (stepEvent st e) := by
  cases e with
  | run d =>
      show SignOutInv (effectBody st d)
      cases hact : effectAction st.signingOut d with
      | noAction => simpa [effectBody, hact] using h
      | signOut401 =>
          have hg : st.signingOut = false := by
            by_contra hq
            rw [Bool.not_eq_false] at hq
            rw [hq, effectAction_guard] at hact
            exact CorrectiveAction.noConfusion hact
          have h0 : st.inFlight = 0 := by
            rw [SignOutInv, hg] at h
            simpa using h
          simp [effectBody, hact, SignOutInv, h0]
      | signOutNoToken =>
          have hg : st.signingOut = false := by
            by_contra hq
            rw [Bool.not_eq_false] at hq
            rw [hq, effectAction_guard] at hact
            exact CorrectiveAction.noConfusion hact
          have h0 : st.inFlight = 0 := by
            rw [SignOutInv, hg] at h
            simpa using h
          simp [effectBody, hact, SignOutInv, h0]
  | settle ok =>
      show SignOutInv (settleBody st ok)
      by_cases h0 : st.inFlight = 0
      · simpa [settleBody, h0] using h
      · cases hsg : st.signingOut with
        | false =>
            exfalso
            rw [SignOutInv, hsg] at h
            simp at h
            exact h0 h
        | true =>
            rw [SignOutInv, hsg] at h
            simp at h
            cases ok with
            | true => simp [settleBody, h0, SignOutInv]; omega
            | false => simp [settleBody, h0, hsg, SignOutInv]; omega

lemma signOutInv_foldl (evs : List AuthEvent) :
    ∀ st : SignOutState, SignOutInv st → SignOutInv (evs.foldl stepEvent st) := by
  induction evs with
  | nil => intro st h; exact h
  | cons e rest ih =>
      intro st h
      exact ih _ (signOutInv_step st e h)

lemma runEvents_inFlight_le_one (evs : List AuthEvent) :
    (runEvents evs).inFlight ≤ 1 := by
  have h := signOutInv_foldl evs initSignOutState signOutInv_init
  rw [SignOutInv] at h
  rw [runEvents]
  split at h <;> omega

lemma settles_preserve_issued (settles : List Bool) :
    ∀ st : SignOutState,
      ((settles.map AuthEvent.settle).foldl stepEvent st).issued = st.issued := by
  induction settles with
  | nil => intro st; rfl
  | cons b rest ih =>
      intro st
      simp only [List.map_cons, List.foldl_cons]
      rw [ih]
      show (settleBody st b).issued = st.issued
      by_cases h0 : st.inFlight = 0 <;> simp [settleBody, h0]

/-! ## Claim theorems -/

/-- C1: the `isAuthenticated` field returned by `useAuth` is true if and only
if the profile fetch has succeeded and the fetched profile is non-empty; in
particular it is false whenever the fetch has not succeeded, whatever the
session status is (the formula does not read the session at all). -/
theorem isAuthenticated_iff_profile_fetched (status : SessionStatus) (q : QueryResult) :
    (useAuth status q).isAuthenticated = true ↔
      (q.qstatus = QueryStatus.success ∧ q.data.isSome = true) := by
  rcases q with ⟨qs, d, e⟩
  simp [useAuth, QueryResult.isSuccess]

/-- C8: the `isLoading` field returned by `useAuth` is true if and only if
the session status is `loading`, or the session status is `authenticated`
and the profile fetch is pending. -/
theorem isLoading_characterization (status : SessionStatus) (q : QueryResult) :
    (useAuth status q).isLoading = true ↔
      (status = SessionStatus.loading ∨
        (status = SessionStatus.authenticated ∧ q.qstatus = QueryStatus.pending)) := by
  rcases q with ⟨qs, d, e⟩
  simp [useAuth, QueryResult.isPending]

/-- C9, counterexample: with session status `loading` and a successful query
carrying a cached profile, `useAuth` reports `isAuthenticated` and `isLoading`
both true, so the two fields are not exclusive over every combination of
session status and fetch state. -/
theorem isAuthenticated_isLoading_both_true :
    (useAuth SessionStatus.loading
      ⟨QueryStatus.success, some ⟨0⟩, none⟩).isAuthenticated = true ∧
    (useAuth SessionStatus.loading
      ⟨QueryStatus.success, some ⟨0⟩, none⟩).isLoading = true := by
  decide

/-- C9, amended: whenever the session status is not `loading`, the
`isAuthenticated` and `isLoading` fields returned by `useAuth` are never both
true: outside `loading` the only loading disjunct left is an authenticated
pending fetch, and a pending fetch is not a successful one. -/
theorem isAuthenticated_isLoading_exclusive (status : SessionStatus) (q : QueryResult)
    (h : status ≠ SessionStatus.loading) :
    ¬((useAuth status q).isAuthenticated = true ∧ (useAuth status q).isLoading = true) := by
  rcases q with ⟨qs, d, e⟩
  cases status <;> cases qs <;>
    simp_all [useAuth, QueryResult.isSuccess, QueryResult.isPending]

/-- C9, witness for the amended theorem at a concrete input. -/
theorem isAuthenticated_isLoading_exclusive_witness :
    ¬((useAuth SessionStatus.authenticated
        ⟨QueryStatus.pending, none, none⟩).isAuthenticated = true ∧
      (useAuth SessionStatus.authenticated
        ⟨QueryStatus.pending, none, none⟩).isLoading = true) :=
  isAuthenticated_isLoading_exclusive SessionStatus.authenticated
    ⟨QueryStatus.pending, none, none⟩ (by decide)

/-- C4: the profile query is enabled exactly when the session status is
`authenticated` and an access token is present (JS-truthy); `retry` is off;
a disabled query makes no fetch attempt, and an enabled one makes exactly one
attempt, so a failed fetch is not retried for the same session snapshot. -/
theorem userQuery_enabled_iff_no_retry (status : SessionStatus) (session : Option Session) :
    ((userQueryOptions status (hasToken session)).enabled = true ↔
      (status = SessionStatus.authenticated ∧ hasToken session = true)) ∧
    (userQueryOptions status (hasToken session)).retry = false ∧
    ((userQueryOptions status (hasToken session)).enabled = false →
      maxFetchAttempts (userQueryOptions status (hasToken session)) = 0) ∧
    ((userQueryOptions status (hasToken session)).enabled = true →
      maxFetchAttempts (userQueryOptions status (hasToken session)) = 1) := by
  refine ⟨?_, rfl, ?_, ?_⟩
  · simp [userQueryOptions]
  · intro h
    simp [maxFetchAttempts, h]
  · intro h
    simp only [maxFetchAttempts, h, if_true]
    rfl

/-- C4, witness: with a token the query makes one attempt; authenticated
without a token it makes none. -/
theorem userQuery_enabled_iff_no_retry_witness :
    maxFetchAttempts (userQueryOptions SessionStatus.authenticated
      (hasToken (some ⟨some "tok"⟩))) = 1 ∧
    maxFetchAttempts (userQueryOptions SessionStatus.authenticated
      (hasToken (some ⟨none⟩))) = 0 :=
  ⟨(userQuery_enabled_iff_no_retry SessionStatus.authenticated
      (some ⟨some "tok"⟩)).2.2.2 (by decide),
   (userQuery_enabled_iff_no_retry SessionStatus.authenticated
      (some ⟨none⟩)).2.2.1 (by decide)⟩

/-- C2, counterexample: when the sign-out promise settles with failure the
guard is NOT released — only a fulfillment handler is attached — so after a
failed sign-out the flag is still set and a later trigger issues no new
sign-out call (issued stays at 1). This refutes release-on-failure. -/
theorem signout_guard_held_after_rejection :
    (settleBody (effectBody initSignOutState
      ⟨some (JsError.apiError 401 "Unauthorized"), SessionStatus.authenticated, true⟩)
      false).signingOut = true ∧
    (effectBody (settleBody (effectBody initSignOutState
      ⟨some (JsError.apiError 401 "Unauthorized"), SessionStatus.authenticated, true⟩)
      false)
      ⟨some (JsError.apiError 401 "Unauthorized"), SessionStatus.authenticated, true⟩).issued
      = 1 := by
  decide

/-- C2, amended: the guard is set whenever a sign-out is issued; while it is
held the effect body changes nothing (so the guard stays held until
settlement); settlement with success releases it; settlement with failure
leaves it exactly as it was, i.e. held. -/
theorem signout_guard_lifecycle :
    (∀ (st : SignOutState) (d : EffectDeps),
      (effectBody st d).issued ≠ st.issued → (effectBody st d).signingOut = true) ∧
    (∀ (st : SignOutState) (d : EffectDeps),
      st.signingOut = true → effectBody st d = st) ∧
    (∀ st : SignOutState, 0 < st.inFlight → (settleBody st true).signingOut = false) ∧
    (∀ st : SignOutState, (settleBody st false).signingOut = st.signingOut) := by
  refine ⟨?_, ?_, ?_, ?_⟩
  · intro st d h
    cases hact : effectAction st.signingOut d with
    | noAction => rw [effectBody, hact] at h; exact absurd rfl h
    | signOut401 => rw [effectBody, hact]
    | signOutNoToken => rw [effectBody, hact]
  · intro st d h
    exact effectBody_of_guard st d h
  · intro st h
    have h0 : ¬st.inFlight = 0 := Nat.pos_iff_ne_zero.mp h
    simp [settleBody, h0]
  · intro st
    by_cases h0 : st.inFlight = 0 <;> simp [settleBody, h0]

/-- C2, witness for the amended guard lifecycle at concrete states. -/
theorem signout_guard_lifecycle_witness :
    (effectBody initSignOutState
      ⟨none, SessionStatus.authenticated, false⟩).signingOut = true ∧
    effectBody ⟨true, 1, 1⟩ ⟨none, SessionStatus.authenticated, false⟩ = ⟨true, 1, 1⟩ ∧
    (settleBody ⟨true, 1, 1⟩ true).signingOut = false ∧
    (settleBody ⟨true, 1, 1⟩ false).signingOut = (⟨true, 1, 1⟩ : SignOutState).signingOut :=
  ⟨signout_guard_lifecycle.1 initSignOutState
      ⟨none, SessionStatus.authenticated, false⟩ (by decide),
   signout_guard_lifecycle.2.1 ⟨true, 1, 1⟩
      ⟨none, SessionStatus.authenticated, false⟩ rfl,
   signout_guard_lifecycle.2.2.1 ⟨true, 1, 1⟩ (by decide),
   signout_guard_lifecycle.2.2.2 ⟨true, 1, 1⟩⟩

/-- C3: (i) on every run where the guard is free and the query error is a
401, the 401 corrective action fires; (ii) such a run issues a sign-out call
(the issued count grows by one); (iii) when the error is a 401 the no-token
branch never fires — the 401 branch returns first, so at most one of the two
corrective actions fires per run; (iv) over every event interleaving, at most
one sign-out is in flight at a time; (v) in the scenario of a session that
stays authenticated without a token (one effect run for the unchanged
dependency snapshot, followed by any settlements), exactly one sign-out call
is issued. -/
theorem reconciliation_effect_single_flight :
    (∀ d : EffectDeps, is401 d.error = true →
      effectAction false d = CorrectiveAction.signOut401) ∧
    (∀ (st : SignOutState) (d : EffectDeps),
      st.signingOut = false → is401 d.error = true →
      (effectBody st d).issued = st.issued + 1) ∧
    (∀ (g : Bool) (d : EffectDeps), is401 d.error = true →
      effectAction g d ≠ CorrectiveAction.signOutNoToken) ∧
    (∀ evs : List AuthEvent, (runEvents evs).inFlight ≤ 1) ∧
    (∀ settles : List Bool,
      (runEvents (AuthEvent.run ⟨none, SessionStatus.authenticated, false⟩ ::
        settles.map AuthEvent.settle)).issued = 1) := by
  refine ⟨?_, ?_, ?_, runEvents_inFlight_le_one, ?_⟩
  · intro d h401
    simp [effectAction, h401]
  · intro st d hg h401
    have hact : effectAction st.signingOut d = CorrectiveAction.signOut401 := by
      rw [hg]
      simp [effectAction, h401]
    rw [effectBody, hact]
  · intro g d h401
    cases g <;> simp [effectAction, h401]
  · intro settles
    show ((settles.map AuthEvent.settle).foldl stepEvent
      (stepEvent initSignOutState
        (AuthEvent.run ⟨none, SessionStatus.authenticated, false⟩))).issued = 1
    rw [settles_preserve_issued]
    rfl

/-- C3, witness at concrete inputs: a run with a concrete 401 error selects
the 401 action and issues a sign-out call, never the no-token branch; a
concrete trace keeps at most one sign-out in flight; and the
authenticated-without-token scenario with two settlements issues exactly one
sign-out. -/
theorem reconciliation_effect_single_flight_witness :
    effectAction false
      ⟨some (JsError.apiError 401 "Unauthorized"), SessionStatus.authenticated, false⟩
      = CorrectiveAction.signOut401 ∧
    (effectBody initSignOutState
      ⟨some (JsError.apiError 401 "Unauthorized"), SessionStatus.authenticated, false⟩).issued
      = initSignOutState.issued + 1 ∧
    effectAction false
      ⟨some (JsError.apiError 401 "Unauthorized"), SessionStatus.authenticated, false⟩
      ≠ CorrectiveAction.signOutNoToken ∧
    (runEvents [AuthEvent.run
        ⟨some (JsError.apiError 401 "Unauthorized"), SessionStatus.authenticated, false⟩,
      AuthEvent.settle true]).inFlight ≤ 1 ∧
    (runEvents (AuthEvent.run ⟨none, SessionStatus.authenticated, false⟩ ::
      [true, false].map AuthEvent.settle)).issued = 1 :=
  ⟨reconciliation_effect_single_flight.1
      ⟨some (JsError.apiError 401 "Unauthorized"), SessionStatus.authenticated, false⟩
      (by decide),
   reconciliation_effect_single_flight.2.1 initSignOutState
      ⟨some (JsError.apiError 401 "Unauthorized"), SessionStatus.authenticated, false⟩
      rfl (by decide),
   reconciliation_effect_single_flight.2.2.1 false
      ⟨some (JsError.apiError 401 "Unauthorized"), SessionStatus.authenticated, false⟩
      (by decide),
   reconciliation_effect_single_flight.2.2.2.1
      [AuthEvent.run
        ⟨some (JsError.apiError 401 "Unauthorized"), SessionStatus.authenticated, false⟩,
      AuthEvent.settle true],
   reconciliation_effect_single_flight.2.2.2.2 [true, false]⟩

/-- C5: a failed join call produces no toast and no navigation, and the
rendered error message is determined by the HTTP status: 404 maps to the
invalid-or-expired message, 403 to the different-email message, 409 to
exactly "You are already in a family.", every other status and every
non-`ApiError` failure to the generic message. -/
theorem join_failure_no_navigation_and_messages :
    (∀ e : JsError, handleAccept (Except.error e) = ⟨[], []⟩) ∧
    (∀ (s : Nat) (m : String), getErrorMessage (JsError.apiError s m) =
      if s = 404 then "This invite link is invalid or has expired."
      else if s = 403 then "This invite was sent to a different email address."
      else if s = 409 then "You are already in a family."
      else "Something went wrong. Please try again.") ∧
    getErrorMessage JsError.other = "Something went wrong. Please try again." ∧
    getErrorMessage (JsError.apiError 409 "Conflict") = "You are already in a family." := by
  refine ⟨fun e => rfl, fun s m => rfl, rfl, by decide⟩

/-- C10: `getErrorMessage` is total and never returns the empty string; every
value that is not an `ApiError`, and every `ApiError` whose status is none of
404, 403, 409 (for example 401), is mapped to the generic message — the
function only builds a string and triggers no sign-out. -/
theorem getErrorMessage_total_nonempty :
    (∀ e : JsError, getErrorMessage e ≠ "") ∧
    getErrorMessage JsError.other = "Something went wrong. Please try again." ∧
    (∀ (s : Nat) (m : String), s ≠ 404 → s ≠ 403 → s ≠ 409 →
      getErrorMessage (JsError.apiError s m) =
        "Something went wrong. Please try again.") := by
  refine ⟨?_, rfl, ?_⟩
  · intro e
    cases e with
    | apiError s m =>
        rw [getErrorMessage]
        split_ifs <;> decide
    | other => decide
  · intro s m h404 h403 h409
    simp [getErrorMessage, h404, h403, h409]

/-- C10, witness: a 401 `ApiError` gets the non-empty generic message. -/
theorem getErrorMessage_total_nonempty_witness :
    getErrorMessage (JsError.apiError 401 "Unauthorized") ≠ "" ∧
    getErrorMessage (JsError.apiError 401 "Unauthorized") =
      "Something went wrong. Please try again." :=
  ⟨getErrorMessage_total_nonempty.1 (JsError.apiError 401 "Unauthorized"),
   getErrorMessage_total_nonempty.2.2 401 "Unauthorized"
     (by decide) (by decide) (by decide)⟩

/-- C6: with a (JS-truthy) token present and an unauthenticated session the
invite page redirects to the login page with the original invite link
URL-encoded as `callbackUrl`; for the token `abc123` the target is exactly
`/login?callbackUrl=%2Finvite%3Ftoken%3Dabc123`. -/
theorem invite_unauthenticated_redirect :
    (∀ t : String, t ≠ "" →
      inviteEffect (some t) SessionStatus.unauthenticated =
        NavAction.replace
          ("/login?callbackUrl=" ++ encodeURIComponent ("/invite?token=" ++ t))) ∧
    inviteEffect (some "abc123") SessionStatus.unauthenticated =
      NavAction.replace "/login?callbackUrl=%2Finvite%3Ftoken%3Dabc123" := by
  constructor
  · intro t h
    simp [inviteEffect, jsTruthy, h]
  · decide

/-- C6, witness: the general redirect statement applied at the concrete
token `abc123`. -/
theorem invite_unauthenticated_redirect_witness :
    inviteEffect (some "abc123") SessionStatus.unauthenticated =
      NavAction.replace
        ("/login?callbackUrl=" ++ encodeURIComponent ("/invite?token=" ++ "abc123")) :=
  invite_unauthenticated_redirect.1 "abc123" (by decide)

/-- C7: when no token query parameter is present the invite page's effect
redirects to `/dashboard/family` and the page renders nothing, whatever the
session status is. -/
theorem invite_no_token_redirect (status : SessionStatus) :
    inviteEffect none status = NavAction.replace "/dashboard/family" ∧
    inviteRender none status = InviteRender.nothing := by
  cases status <;> exact ⟨rfl, rfl⟩

end Wardrowbe
